import Mathlib

/-!
Shallow embedding of the Poltergeist MCP server tools (src/main.py).

Each tool is modelled as a pure Lean function.  JSON-compatible Python
values (the parsed provider responses and the dictionaries the tools
return) are modelled by the inductive type `JVal`; Python numbers are
modelled by rationals (`ℚ`), which capture the exact arithmetic the
claims exercise (sums, division by 100, the 0.9 threshold).  Outbound
network activity is not executed: every operation takes the provider /
datastore response as an explicit parameter and additionally reports the
number of network calls it would have issued (`× Nat` in its result
type), so that "no network call is made" is a provable statement.

Python operations that can raise (`d.get` on a non-dict, `float()` on a
non-numeric value, subscripting, `len`) are modelled in the
`Except String` monad; each tool's `try/except` block is modelled by a
wrapper that converts an `Except.error` into the tool's catch-all error
dictionary.  Code that runs *outside* a `try` block (notably the cost
extraction in `checkout_amazon_cart`, source lines 460-500) is modelled
outside the wrapper, so an exception there surfaces as `Except.error` in
the tool's result — i.e. an exception escaping the tool boundary.
-/

/-- JSON-compatible Python values.  Python ints and floats are merged
into one rational-valued constructor; none of the verified claims
distinguishes them. -/
inductive JVal : Type where
  | null : JVal
  | bool : Bool → JVal
  | num : ℚ → JVal
  | str : String → JVal
  | arr : List JVal → JVal
  | obj : List (String × JVal) → JVal

/-- First-match lookup in a field list (Python dict keys are unique, so
first-match agrees with dict lookup). -/
def jlookup : List (String × JVal) → String → Option JVal
  | [], _ => none
  | (k, v) :: rest, key => if k = key then some v else jlookup rest key

/-- Python truthiness of a JSON value. -/
def truthy : JVal → Bool
  | .null => false
  | .bool b => b
  | .num q => decide (q ≠ 0)
  | .str s => decide (s ≠ "")
  | .arr xs => !xs.isEmpty
  | .obj fs => !fs.isEmpty

/-- Python `a or b`. -/
def pyOr (a b : JVal) : JVal := if truthy a then a else b

def isDict : JVal → Bool
  | .obj _ => true
  | _ => false

def isList : JVal → Bool
  | .arr _ => true
  | _ => false

/-- Python `d.get(k, dflt)`; raises (AttributeError) when the receiver
is not a dict. -/
def pyGetD : JVal → String → JVal → Except String JVal
  | .obj fs, k, dflt => .ok ((jlookup fs k).getD dflt)
  | _, _, _ => .error "AttributeError: object has no attribute get"

/-- Python `d.get(k)` (default `None`). -/
def pyGet (v : JVal) (k : String) : Except String JVal := pyGetD v k .null

/-- Total lookup used where the receiver is already known to be a dict;
yields `None` for an absent key. -/
def jget : JVal → String → JVal
  | .obj fs, k => (jlookup fs k).getD .null
  | _, _ => .null

/-- Total lookup with an explicit default (`d.get(k, dflt)` on a known
dict). -/
def jgetD : JVal → String → JVal → JVal
  | .obj fs, k, dflt => (jlookup fs k).getD dflt
  | _, _, dflt => dflt

/-- Python `d[k]` subscripting by string key. -/
def pyIndexKey : JVal → String → Except String JVal
  | .obj fs, k =>
    match jlookup fs k with
    | some v => .ok v
    | none => .error ("KeyError: " ++ k)
  | _, _ => .error "TypeError: object is not subscriptable"

/-- Python `x[i]` subscripting by a non-negative integer. -/
def pyIndexNat : JVal → Nat → Except String JVal
  | .arr xs, i =>
    match xs.get? i with
    | some v => .ok v
    | none => .error "IndexError: list index out of range"
  | _, _ => .error "TypeError: object is not subscriptable"

/-- Python `len(x)`. -/
def pyLen : JVal → Except String Nat
  | .arr xs => .ok xs.length
  | .obj fs => .ok fs.length
  | .str s => .ok s.length
  | _ => .error "TypeError: object has no len"

/-- Python `for x in v`: lists yield elements, strings yield 1-character
strings, dicts yield their keys; other values are not iterable. -/
def pyIter : JVal → Except String (List JVal)
  | .arr xs => .ok xs
  | .str s => .ok (s.toList.map fun c => JVal.str (String.mk [c]))
  | .obj fs => .ok (fs.map fun p => JVal.str p.1)
  | _ => .error "TypeError: object is not iterable"

def digitsToNat (cs : List Char) : Nat :=
  cs.foldl (fun a c => a * 10 + (c.toNat - 48)) 0

/-- Decimal-literal parsing for Python `float(str)`: optional sign,
digits, optional fractional part.  (Scientific notation, inf/nan and
surrounding whitespace are not modelled; no value arising in this
development uses them.) -/
def parseDecimal (s : String) : Option ℚ :=
  let go : List Char → Option ℚ := fun cs =>
    let intPart := cs.takeWhile Char.isDigit
    let rest := cs.dropWhile Char.isDigit
    match rest with
    | [] => if intPart.isEmpty then none else some (digitsToNat intPart : ℚ)
    | '.' :: frac =>
      if frac.all Char.isDigit ∧ ¬(intPart.isEmpty ∧ frac.isEmpty) then
        some ((digitsToNat intPart : ℚ) + (digitsToNat frac : ℚ) / 10 ^ frac.length)
      else none
    | _ => none
  match s.toList with
  | '-' :: cs => (go cs).map Neg.neg
  | '+' :: cs => go cs
  | cs => go cs

/-- Python `float(x)`. -/
def pyFloat : JVal → Except String ℚ
  | .num q => .ok q
  | .bool b => .ok (if b then 1 else 0)
  | .str s =>
    match parseDecimal s with
    | some q => .ok q
    | none => .error ("could not convert string to float: \x27" ++ s ++ "\x27")
  | .null => .error "float() argument must be a string or a real number, not NoneType"
  | _ => .error "float() argument must be a string or a real number"

def pyReprQ (q : ℚ) : String :=
  if q.den = 1 then toString q.num else toString q.num ++ "/" ++ toString q.den

mutual
/-- Python `repr` of a JSON value (string cosmetics only; numbers are
rendered as rationals, which no verified claim inspects). -/
def pyRepr : JVal → String
  | .null => "None"
  | .bool b => if b then "True" else "False"
  | .num q => pyReprQ q
  | .str s => "\x27" ++ s ++ "\x27"
  | .arr xs => "[" ++ pyReprList xs ++ "]"
  | .obj fs => "\x7b" ++ pyReprFields fs ++ "\x7d"

def pyReprList : List JVal → String
  | [] => ""
  | [x] => pyRepr x
  | x :: y :: rest => pyRepr x ++ ", " ++ pyReprList (y :: rest)

def pyReprFields : List (String × JVal) → String
  | [] => ""
  | [(k, v)] => "\x27" ++ k ++ "\x27: " ++ pyRepr v
  | (k, v) :: p :: rest => "\x27" ++ k ++ "\x27: " ++ pyRepr v ++ ", " ++ pyReprFields (p :: rest)
end

/-- Python `str(x)`. -/
def pyStr : JVal → String
  | .str s => s
  | v => pyRepr v

/-! ### Process environment and transport model -/

/-- The environment variables the tools read (`os.environ.get`); `none`
models an unset variable. -/
structure Env where
  firecrawlApiKey : Option String
  ryeAuthHeader : Option String
  ryeShopperIp : Option String
  supabaseUrl : Option String
  supabaseKey : Option String

/-- Python truthiness of an `os.environ.get` result (`None` and the
empty string are both falsy). -/
def envTruthy : Option String → Bool
  | none => false
  | some s => decide (s ≠ "")

def emptyEnv : Env := ⟨none, none, none, none, none⟩

def fullEnv : Env :=
  ⟨some "fc-key", some "rye-auth", some "203.0.113.7", some "sb-url", some "sb-key"⟩

/-- Outcome of one `httpx` POST inside a `try` block: a 2xx response
with parsed JSON body, an `HTTPStatusError` from `raise_for_status`, an
`httpx.RequestError`, or some other exception raised while obtaining or
decoding the response. -/
inductive HttpOutcome : Type where
  | ok : JVal → HttpOutcome
  | statusError : Nat → String → HttpOutcome
  | requestError : String → HttpOutcome
  | raised : String → HttpOutcome

/-- Outcome of one supabase request: `error` models a truthy
`resp.error` (its message), `data` models `resp.data`. -/
structure SupaResp where
  error : Option String
  data : JVal

/-! ### research_products (src/main.py lines 28-65)

The provider interaction is abstracted as `search : Except String JVal`:
the extracted `search_results` value on success, or the message of an
exception raised by the Firecrawl client. -/

/-- Per-record reshaping (lines 47-53), raising on non-dict records. -/
def processResult (result : JVal) : Except String JVal := do
  let title ← pyGetD result "title" (JVal.str "N/A")
  let url ← pyGetD result "url" (JVal.str "N/A")
  let snippet ← pyGetD result "description" (JVal.str "")
  pure (JVal.obj [("title", title), ("url", url), ("snippet", snippet)])

/-- Total form of `processResult` on dict records. -/
def procRecord (result : JVal) : JVal :=
  JVal.obj
    [("title", jgetD result "title" (JVal.str "N/A")),
     ("url", jgetD result "url" (JVal.str "N/A")),
     ("snippet", jgetD result "description" (JVal.str ""))]

/-- The accumulation loop of lines 46-53. -/
def processAll : List JVal → Except String (List JVal)
  | [] => pure []
  | result :: rest => do
    let v ← processResult result
    let tail ← processAll rest
    pure (v :: tail)

/-- Body of the `try` block of `research_products` (lines 36-63), after
the search call returned `search_results`. -/
def research_products_body (search_results : JVal) : Except String JVal := do
  if truthy search_results then
    let items ← pyIter search_results
    let processed ← processAll items
    pure (JVal.obj [("results", JVal.arr processed)])
  else
    pure (JVal.obj
      [("error", JVal.str "Unexpected format from Firecrawl search."),
       ("details", JVal.str (pyStr search_results))])

def firecrawlConfigError : JVal :=
  JVal.obj [("error", JVal.str "FIRECRAWL_API_KEY not set.")]

/-- Embedding of `research_products` (lines 28-65).  Second component: number of
network calls issued. -/
def research_products (env : Env) (search : Except String JVal) : JVal × Nat :=
  if !envTruthy env.firecrawlApiKey then (firecrawlConfigError, 0)
  else
    match (do research_products_body (← search) : Except String JVal) with
    | .ok v => (v, 1)
    | .error e =>
      (JVal.obj [("error", JVal.str ("An error occurred during Firecrawl search: " ++ e))], 1)

/-! ### request_amazon_product_tracking (lines 68-134) -/

def ryeConfigErrorLong : JVal :=
  JVal.obj
    [("error", JVal.str "RYE_AUTH_HEADER or RYE_SHOPPER_IP not set in environment variables.")]

/-- Response processing of the tracking mutation (lines 106-124). -/
def tracking_body (response_data : JVal) : Except String JVal := do
  let errs ← pyGet response_data "errors"
  if truthy errs then
    let e ← pyIndexKey response_data "errors"
    pure (JVal.obj [("error", JVal.str "GraphQL error from Rye"), ("details", e)])
  else
    let d ← pyGetD response_data "data" (JVal.obj [])
    let payload ← pyGetD d "requestAmazonProductByURL" (JVal.obj [])
    let product_id ← pyGet payload "productId"
    if !truthy product_id then
      pure (JVal.obj
        [("error", JVal.str "productId not found in Rye response"),
         ("details", response_data)])
    else
      pure (JVal.obj [("productId", product_id)])

def request_amazon_product_tracking (env : Env) (resp : HttpOutcome) : JVal × Nat :=
  if !(envTruthy env.ryeAuthHeader && envTruthy env.ryeShopperIp) then
    (ryeConfigErrorLong, 0)
  else
    match resp with
    | .ok body =>
      match tracking_body body with
      | .ok v => (v, 1)
      | .error e =>
        (JVal.obj [("error", JVal.str ("An unexpected error occurred: " ++ e))], 1)
    | .statusError code text =>
      (JVal.obj
        [("error", JVal.str ("HTTP error occurred while contacting Rye: " ++ toString code)),
         ("details", JVal.str text)], 1)
    | .requestError m =>
      (JVal.obj [("error", JVal.str ("Request error occurred while contacting Rye: " ++ m))], 1)
    | .raised m =>
      (JVal.obj [("error", JVal.str ("An unexpected error occurred: " ++ m))], 1)

/-! ### fetch_amazon_product_details (lines 137-198) -/

/-- A `fastmcp.Image(url)` value is modelled by a tagged wrapper around the
URL. -/
def ImageRef (url : JVal) : JVal := JVal.obj [("fastmcp_image", url)]

/-- The image-collection loop of lines 186-189. -/
def collectImages : List JVal → Except String (List JVal)
  | [] => pure []
  | img :: rest => do
    let keep ←
      if isDict img then do
        let u ← pyGet img "url"
        if truthy u then do
          let u2 ← pyIndexKey img "url"
          pure [ImageRef u2]
        else pure []
      else pure []
    let tail ← collectImages rest
    pure (keep ++ tail)

/-- Dict update `product["image_previews"] = ...` (insertion-ordered:
an existing key keeps its slot, a new key is appended). -/
def objSet : JVal → String → JVal → Except String JVal
  | .obj fs, k, v =>
    let go : List (String × JVal) → List (String × JVal) := fun l =>
      if (jlookup l k).isSome then
        l.map fun p => if p.1 = k then (k, v) else p
      else l ++ [(k, v)]
    .ok (JVal.obj (go fs))
  | _, _, _ => .error "TypeError: object does not support item assignment"

/-- Response processing of the product-detail query (lines 179-191). -/
def details_body (data : JVal) : Except String JVal := do
  let errs ← pyGet data "errors"
  if truthy errs then
    let e ← pyIndexKey data "errors"
    pure (JVal.obj [("error", JVal.str "GraphQL error"), ("details", e)])
  else
    let d ← pyGetD data "data" (JVal.obj [])
    let product ← pyGet d "product"
    if !truthy product then
      pure (JVal.obj [("error", JVal.str "Product not found"), ("details", data)])
    else do
      let imgs ← pyGetD product "images" (JVal.arr [])
      let items ← pyIter imgs
      let img_objs ← collectImages items
      objSet product "image_previews" (JVal.arr img_objs)

def fetch_amazon_product_details (env : Env) (resp : HttpOutcome) : JVal × Nat :=
  if !(envTruthy env.ryeAuthHeader && envTruthy env.ryeShopperIp) then
    (ryeConfigErrorLong, 0)
  else
    match resp with
    | .ok body =>
      match details_body body with
      | .ok v => (v, 1)
      | .error e => (JVal.obj [("error", JVal.str e)], 1)
    | .statusError code text =>
      (JVal.obj
        [("error", JVal.str ("HTTP error " ++ toString code)),
         ("details", JVal.str text)], 1)
    | .requestError m => (JVal.obj [("error", JVal.str m)], 1)
    | .raised m => (JVal.obj [("error", JVal.str m)], 1)

/-! ### create_amazon_cart (lines 221-351) -/

def ryeConfigErrorShort : JVal :=
  JVal.obj [("error", JVal.str "RYE_AUTH_HEADER or RYE_SHOPPER_IP not set")]

/-- The strict structural validation of lines 320-327, with Python's
short-circuit evaluation order. -/
def emptyCartCheck (cart_object : JVal) : Except String Bool := do
  let stores ← pyGet cart_object "stores"
  if !truthy stores then pure true
  else if !isList stores then pure true
  else do
    let n ← pyLen stores
    if n = 0 then pure true
    else do
      let s0 ← pyIndexNat stores 0
      let cartLines ← pyGet s0 "cartLines"
      if !truthy cartLines then pure true
      else if !isList cartLines then pure true
      else do
        let m ← pyLen cartLines
        pure (m = 0)

/-- The store-level error loop of lines 335-341: the errors array of the
first store whose `errors` is truthy and non-empty, if any. -/
def findStoreError : List JVal → Except String (Option JVal)
  | [] => pure none
  | store :: rest => do
    let errs ← pyGet store "errors"
    if truthy errs then do
      let n ← pyLen errs
      if n > 0 then do
        let e ← pyIndexKey store "errors"
        pure (some e)
      else findStoreError rest
    else findStoreError rest

/-- The failure dictionary built by lines 328-332. -/
def emptyCartFailure (cart_object : JVal) : JVal :=
  JVal.obj
    [("error", JVal.str "Cart created but appears empty or item not added successfully."),
     ("details", JVal.str "No stores or cartLines found in the response, or they are empty."),
     ("cart_details_received", cart_object)]

/-- The failure dictionary built by lines 337-341. -/
def storeErrorFailure (errs cart_object : JVal) : JVal :=
  JVal.obj
    [("error", JVal.str "Store-level error reported during cart creation."),
     ("details", errs),
     ("cart_details_received", cart_object)]

/-- Response processing of the cart-creation mutation (lines 291-343). -/
def create_cart_body (response_data : JVal) : Except String JVal := do
  let errs ← pyGet response_data "errors"
  if truthy errs then do
    let e ← pyIndexKey response_data "errors"
    pure (JVal.obj
      [("error", JVal.str "GraphQL top-level error during cart creation"),
       ("details", e)])
  else do
    let d ← pyGetD response_data "data" (JVal.obj [])
    let create_cart_payload ← pyGet d "createCart"
    if !truthy create_cart_payload then
      pure (JVal.obj
        [("error", JVal.str "Cart creation failed, \x27createCart\x27 payload missing"),
         ("details", response_data)])
    else do
      let perrs ← pyGet create_cart_payload "errors"
      if truthy perrs then do
        let e ← pyIndexKey create_cart_payload "errors"
        pure (JVal.obj
          [("error", JVal.str "GraphQL error within createCart mutation result"),
           ("details", e)])
      else do
        let cart_object ← pyGet create_cart_payload "cart"
        let idMissing ←
          if !truthy cart_object then pure true
          else do
            let i ← pyGet cart_object "id"
            pure (!truthy i)
        if idMissing then
          pure (JVal.obj
            [("error", JVal.str "Cart ID not found in successful cart creation"),
             ("details", create_cart_payload)])
        else do
          let isEmpty ← emptyCartCheck cart_object
          if isEmpty then pure (emptyCartFailure cart_object)
          else do
            let stores ← pyGetD cart_object "stores" (JVal.arr [])
            let storeList ← pyIter stores
            match ← findStoreError storeList with
            | some e => pure (storeErrorFailure e cart_object)
            | none => pure create_cart_payload

def create_amazon_cart (env : Env) (resp : HttpOutcome) : JVal × Nat :=
  if !(envTruthy env.ryeAuthHeader && envTruthy env.ryeShopperIp) then
    (ryeConfigErrorShort, 0)
  else
    match resp with
    | .ok body =>
      match create_cart_body body with
      | .ok v => (v, 1)
      | .error e =>
        (JVal.obj
          [("error", JVal.str ("An unexpected error occurred during cart creation: " ++ e))], 1)
    | .statusError code text =>
      (JVal.obj
        [("error", JVal.str ("HTTP error during cart creation: " ++ toString code)),
         ("details", JVal.str text)], 1)
    | .requestError m =>
      (JVal.obj
        [("error", JVal.str ("An unexpected error occurred during cart creation: " ++ m))], 1)
    | .raised m =>
      (JVal.obj
        [("error", JVal.str ("An unexpected error occurred during cart creation: " ++ m))], 1)

/-! ### get_rye_cart_details (lines 355-449) -/

/-- Response processing of the getCart query (lines 411-441). -/
def get_cart_body (response_data : JVal) : Except String JVal := do
  let errs ← pyGet response_data "errors"
  if truthy errs then do
    let e ← pyIndexKey response_data "errors"
    pure (JVal.obj
      [("error", JVal.str "GraphQL top-level execution error fetching cart details"),
       ("details", e)])
  else do
    let d ← pyGetD response_data "data" (JVal.obj [])
    let get_cart_response_payload ← pyGet d "getCart"
    if !truthy get_cart_response_payload then
      pure (JVal.obj
        [("error", JVal.str "No \x27getCart\x27 payload in response data"),
         ("details", response_data)])
    else do
      let perrs ← pyGet get_cart_response_payload "errors"
      if truthy perrs then do
        let e ← pyIndexKey get_cart_response_payload "errors"
        pure (JVal.obj
          [("error", JVal.str "GraphQL error reported by getCart operation"),
           ("details", e)])
      else do
        let cart_details ← pyGet get_cart_response_payload "cart"
        if !truthy cart_details then
          pure (JVal.obj
            [("error", JVal.str "Could not retrieve nested \x27cart\x27 details or cart not found"),
             ("details", get_cart_response_payload)])
        else
          pure cart_details

/-- Embedding of `get_rye_cart_details`.  The requested cart id only shapes the
outbound query, which is abstracted by `resp`. -/
def get_rye_cart_details (env : Env) (resp : HttpOutcome) : JVal × Nat :=
  if !(envTruthy env.ryeAuthHeader && envTruthy env.ryeShopperIp) then
    (ryeConfigErrorShort, 0)
  else
    match resp with
    | .ok body =>
      match get_cart_body body with
      | .ok v => (v, 1)
      | .error e =>
        (JVal.obj [("error", JVal.str ("Unexpected error fetching cart: " ++ e))], 1)
    | .statusError code text =>
      (JVal.obj
        [("error", JVal.str ("HTTP error fetching cart: " ++ toString code)),
         ("details", JVal.str text)], 1)
    | .requestError m =>
      (JVal.obj [("error", JVal.str ("Unexpected error fetching cart: " ++ m))], 1)
    | .raised m =>
      (JVal.obj [("error", JVal.str ("Unexpected error fetching cart: " ++ m))], 1)

/-! ### checkout_amazon_cart (lines 452-527)

Lines 460-500 (cart fetch, cost extraction, items snapshot) run OUTSIDE
the `try` block that starts at line 501, so an exception raised there
(e.g. by `float()` on a non-numeric cost value) escapes the tool; the
embedding returns it as `Except.error`. -/

/-- The expression `float((cost_info.get(k) or \x7b\x7d).get("value") or 0)` (lines
475-477). -/
def componentValue (cost_info : JVal) (k : String) : Except String ℚ := do
  let comp ← pyGet cost_info k
  let v ← pyGet (pyOr comp (JVal.obj [])) "value"
  pyFloat (pyOr v (JVal.num 0))

/-- The expression `(cost_info.get(k) or \x7b\x7d).get("currency")` (lines 481-485). -/
def componentCurrency (cost_info : JVal) (k : String) : Except String JVal := do
  let comp ← pyGet cost_info k
  pyGet (pyOr comp (JVal.obj [])) "currency"

/-- The item-snapshot inner loop over one store's cart lines (lines
489-500). -/
def snapshotLines : List JVal → Except String (List JVal)
  | [] => pure []
  | line :: rest => do
    let prod ← pyGet line "product"
    let prod := pyOr prod (JVal.obj [])
    let price ← pyGet prod "price"
    let price := pyOr price (JVal.obj [])
    let productId ← pyGet prod "id"
    let title ← pyGet prod "title"
    let quantity ← pyGet line "quantity"
    let price_value ← pyGet price "value"
    let price_currency ← pyGet price "currency"
    let tail ← snapshotLines rest
    pure (JVal.obj
      [("productId", productId), ("title", title), ("quantity", quantity),
       ("price_value", price_value), ("price_currency", price_currency)] :: tail)

/-- The item-snapshot outer loop over stores (lines 487-500). -/
def snapshotStores : List JVal → Except String (List JVal)
  | [] => pure []
  | store :: rest => do
    let cartLines ← pyGet store "cartLines"
    let lineList ← pyIter (pyOr cartLines (JVal.arr []))
    let here ← snapshotLines lineList
    let tail ← snapshotStores rest
    pure (here ++ tail)

/-- Cost extraction and items snapshot (lines 472-500); `cart_details`
is already known to be a dict here.  Runs outside the `try` block. -/
def checkout_extract (cart_details : JVal) : Except String (ℚ × JVal × List JVal) := do
  let cost_info := pyOr (jget cart_details "cost") (JVal.obj [])
  let subtotal_raw ← componentValue cost_info "subtotal"
  let shipping_raw ← componentValue cost_info "shipping"
  let tax_raw ← componentValue cost_info "tax"
  let total_value := (subtotal_raw + shipping_raw + tax_raw) / 100
  let c1 ← componentCurrency cost_info "subtotal"
  let c2 ← componentCurrency cost_info "shipping"
  let c3 ← componentCurrency cost_info "tax"
  let total_currency := pyOr c1 (pyOr c2 c3)
  let storesList ← pyIter (pyOr (jget cart_details "stores") (JVal.arr []))
  let items_snapshot ← snapshotStores storesList
  pure (total_value, total_currency, items_snapshot)

/-- The `try` block of lines 501-527 (supabase client creation, order
row construction, insert). -/
def checkout_insert (cart_id : String) (buyer_info : JVal) (total_value : ℚ)
    (total_currency : JVal) (items_snapshot : List JVal)
    (insertRes : Except String SupaResp) : Except String JVal := do
  let email ← pyGet buyer_info "email"
  let order_data := JVal.obj
    [("rye_order_id", JVal.null),
     ("rye_cart_id", JVal.str cart_id),
     ("user_identifier", email),
     ("status", JVal.str "CREATED"),
     ("total_amount_value", JVal.num total_value),
     ("total_amount_currency", total_currency),
     ("items_snapshot", JVal.arr items_snapshot)]
  let resp ← insertRes
  match resp.error with
  | some msg =>
    pure (JVal.obj
      [("error", JVal.str "Supabase insert failed"),
       ("details", JVal.str msg),
       ("order_data", order_data)])
  | none =>
    pure (JVal.obj
      [("status", JVal.str "success"),
       ("order_data", order_data),
       ("supabase_insert", resp.data)])

/-- Embedding of `checkout_amazon_cart` (lines 452-527).  `ryeResp` abstracts the
getCart request issued by the internal `get_rye_cart_details` call;
`insertRes` abstracts the supabase insert (`Except.error` = an exception
raised inside the `try` block).  First component `Except.error` means an
exception escaped the tool. -/
def checkout_amazon_cart (env : Env) (ryeResp : HttpOutcome) (cart_id : String)
    (buyer_info : JVal) (insertRes : Except String SupaResp) :
    Except String JVal × Nat :=
  if !(envTruthy env.supabaseUrl && envTruthy env.supabaseKey) then
    (.ok (JVal.obj [("error", JVal.str "Supabase URL or service role key not configured.")]), 0)
  else
    let fetched := get_rye_cart_details env ryeResp
    let cart_details := fetched.1
    let n := fetched.2
    if !isDict cart_details then
      (.ok (JVal.obj
        [("error", JVal.str "Invalid cart details received"),
         ("details", JVal.str (pyStr cart_details))]), n)
    else if truthy (jget cart_details "error") then
      (.ok (JVal.obj
        [("error", JVal.str "Failed to fetch cart details before checkout"),
         ("details", cart_details)]), n)
    else
      match checkout_extract cart_details with
      | .error e => (.error e, n)
      | .ok (total_value, total_currency, items_snapshot) =>
        match checkout_insert cart_id buyer_info total_value total_currency
            items_snapshot insertRes with
        | .ok v => (.ok v, n + 1)
        | .error e =>
          (.ok (JVal.obj [("error", JVal.str ("Checkout failed: " ++ e))]), n + 1)

/-! ### list_my_purchases (lines 531-558) -/

def supabaseConfigError : JVal :=
  JVal.obj [("error", JVal.str "Supabase URL or service role key not configured.")]

/-- Embedding of `list_my_purchases`.  The `limit` argument only shapes the datastore
query, which is abstracted by `queryRes`. -/
def list_my_purchases (env : Env) (limit : Int) (queryRes : Except String SupaResp) :
    JVal × Nat :=
  if !(envTruthy env.supabaseUrl && envTruthy env.supabaseKey) then
    (JVal.obj [("error", JVal.str "Supabase URL or key not set in environment.")], 0)
  else
    match queryRes with
    | .error e =>
      (JVal.obj [("error", JVal.str ("Unexpected error fetching purchases: " ++ e))], 1)
    | .ok resp =>
      match resp.error with
      | some msg =>
        (JVal.obj [("error", JVal.str "Supabase query failed"), ("details", JVal.str msg)], 1)
      | none =>
        (JVal.obj [("status", JVal.str "success"), ("orders", pyOr resp.data (JVal.arr []))], 1)

/-! ### set_spending_limit (lines 562-590) -/

def set_spending_limit (env : Env) (user_identifier : String) (limit_value : ℚ)
    (upsertRes : Except String SupaResp) : JVal × Nat :=
  if !(envTruthy env.supabaseUrl && envTruthy env.supabaseKey) then
    (supabaseConfigError, 0)
  else
    match upsertRes with
    | .error e => (JVal.obj [("error", JVal.str ("An unexpected error occurred: " ++ e))], 1)
    | .ok resp =>
      match resp.error with
      | some msg =>
        (JVal.obj [("error", JVal.str "Failed to set spending limit"), ("details", JVal.str msg)], 1)
      | none =>
        (JVal.obj
          [("status", JVal.str "success"),
           ("message", JVal.str ("Spending limit set to " ++ pyReprQ limit_value ++ " for "
             ++ user_identifier ++ ".")),
           ("data", resp.data)], 1)

/-! ### get_spending_status (lines 593-654) -/

/-- Limit resolution (lines 614-617):
`float(limit_resp.data[0].get("limit_value", 0))` when a row exists,
the `1e30` sentinel otherwise. -/
def spendingLimitValue (data : JVal) : Except String ℚ := do
  let nonempty ←
    if truthy data then do
      let n ← pyLen data
      pure (decide (n > 0))
    else pure false
  if nonempty then do
    let first ← pyIndexNat data 0
    let lv ← pyGetD first "limit_value" (JVal.num 0)
    pyFloat lv
  else
    pure ((10 : ℚ) ^ 30)

/-- The comprehension `sum(float(o.get("total_amount_value", 0) or 0) for o in orders)`
(lines 634-636). -/
def sumSpent : List JVal → Except String ℚ
  | [] => pure 0
  | o :: rest => do
    let v ← pyGetD o "total_amount_value" (JVal.num 0)
    let x ← pyFloat (pyOr v (JVal.num 0))
    let tail ← sumSpent rest
    pure (x + tail)

def limitReachedAdvice : String :=
  "Whoa, you\x27ve hit or exceeded your daily spending limit! Time for some anti-retail therapy 🍵."

def approachingAdvice : String :=
  "You\x27re getting close to your daily limit—maybe take a breath before splurging more."

def clearAdvice : String := "All clear! You have room to spend today."

/-- The three-tier advisory of lines 639-644. -/
def spendingAdvice (total_spent limit_value : ℚ) : String :=
  if total_spent ≥ limit_value then limitReachedAdvice
  else if total_spent ≥ (9 / 10 : ℚ) * limit_value then approachingAdvice
  else clearAdvice

/-- Everything inside the `try` block after the limit query succeeded
with a falsy/absent error (lines 614-652); consumes the orders query. -/
def spending_status_rest (limitData : JVal) (ordersQ : Except String SupaResp) :
    JVal × Nat :=
  match spendingLimitValue limitData with
  | .error e => (JVal.obj [("error", JVal.str ("An unexpected error occurred: " ++ e))], 1)
  | .ok limit_value =>
    match ordersQ with
    | .error e => (JVal.obj [("error", JVal.str ("An unexpected error occurred: " ++ e))], 2)
    | .ok orders_resp =>
      match orders_resp.error with
      | some msg =>
        (JVal.obj
          [("error", JVal.str "Failed to fetch today\x27s orders"),
           ("details", JVal.str msg)], 2)
      | none =>
        let orders_today := pyOr orders_resp.data (JVal.arr [])
        match (do sumSpent (← pyIter orders_today) : Except String ℚ) with
        | .error e =>
          (JVal.obj [("error", JVal.str ("An unexpected error occurred: " ++ e))], 2)
        | .ok total_spent =>
          let remaining := limit_value - total_spent
          (JVal.obj
            [("status", JVal.str "success"),
             ("spending_limit", JVal.num limit_value),
             ("total_spent_today", JVal.num total_spent),
             ("remaining_limit", JVal.num remaining),
             ("transactions_today", orders_today),
             ("advice", JVal.str (spendingAdvice total_spent limit_value))], 2)

/-- Embedding of `get_spending_status` (lines 593-654).  The midnight-UTC
`created_at` filter is part of the outbound query and therefore lives in
the `ordersQ` abstraction. -/
def get_spending_status (env : Env) (limitQ ordersQ : Except String SupaResp) :
    JVal × Nat :=
  if !(envTruthy env.supabaseUrl && envTruthy env.supabaseKey) then
    (supabaseConfigError, 0)
  else
    match limitQ with
    | .error e => (JVal.obj [("error", JVal.str ("An unexpected error occurred: " ++ e))], 1)
    | .ok limit_resp =>
      match limit_resp.error with
      | some msg =>
        (JVal.obj
          [("error", JVal.str "Failed to fetch spending limit"),
           ("details", JVal.str msg)], 1)
      | none => spending_status_rest limit_resp.data ordersQ

/-! ### Evaluation lemmas for the embedding -/

theorem truthy_null : truthy JVal.null = false := rfl

theorem truthy_num (q : ℚ) : truthy (JVal.num q) = decide (q ≠ 0) := rfl

theorem truthy_str (s : String) : truthy (JVal.str s) = decide (s ≠ "") := rfl

theorem truthy_arr (xs : List JVal) : truthy (JVal.arr xs) = !xs.isEmpty := rfl

theorem truthy_obj (fs : List (String × JVal)) : truthy (JVal.obj fs) = !fs.isEmpty := rfl

theorem isList_arr (xs : List JVal) : isList (JVal.arr xs) = true := rfl

theorem isDict_obj (fs : List (String × JVal)) : isDict (JVal.obj fs) = true := rfl

theorem pyOr_truthy (a b : JVal) (h : truthy a = true) : pyOr a b = a := by
  simp [pyOr, h]

theorem pyOr_falsy (a b : JVal) (h : truthy a = false) : pyOr a b = b := by
  simp [pyOr, h]

theorem pyFloat_num (q : ℚ) : pyFloat (JVal.num q) = .ok q := rfl

/-- Applying `float(x or 0)` to a numeric `x` yields `x` whether or not `x` is
falsy (Python `0 or 0` is `0`). -/
theorem pyFloat_pyOr_num (q : ℚ) : pyFloat (pyOr (JVal.num q) (JVal.num 0)) = .ok q := by
  by_cases h : q = 0 <;> simp [pyOr, truthy, h, pyFloat]

/-! ### Response and row builders used by the theorems -/

/-- A cart-creation response body `{data: {createCart: {cart: ...}}}`
with no error field anywhere. -/
def createCartBody (cart : JVal) : JVal :=
  JVal.obj [("data", JVal.obj [("createCart", JVal.obj [("cart", cart)])])]

/-- A created cart with the given id, cost object and stores list. -/
def cartWithStores (cid : String) (cost : JVal) (stores : List JVal) : JVal :=
  JVal.obj [("id", JVal.str cid), ("cost", cost), ("stores", JVal.arr stores)]

/-- A cost component `{value?, currency?}` with optional fields. -/
def moneyObj (v : Option ℚ) (c : Option String) : JVal :=
  JVal.obj ((v.map fun q => ("value", JVal.num q)).toList
    ++ (c.map fun s => ("currency", JVal.str s)).toList)

/-- A cart `cost` object with optional subtotal/shipping/tax values and
currencies. -/
def costObj (sv hv tv : Option ℚ) (cs ch ct : Option String) : JVal :=
  JVal.obj
    [("subtotal", moneyObj sv cs), ("shipping", moneyObj hv ch), ("tax", moneyObj tv ct)]

/-- A fetched cart carrying only a cost object and no stores. -/
def cartWithCost (cost : JVal) : JVal :=
  JVal.obj [("cost", cost), ("stores", JVal.arr [])]

/-- A getCart response body `{data: {getCart: {cart: ...}}}`. -/
def getCartBody (cart : JVal) : JVal :=
  JVal.obj [("data", JVal.obj [("getCart", JVal.obj [("cart", cart)])])]

def optCurrency : Option String → JVal
  | none => JVal.null
  | some s => JVal.str s

/-- The first non-null currency, as the spec words it. -/
def firstCurrency : Option String → Option String → Option String → JVal
  | some s, _, _ => JVal.str s
  | none, some s, _ => JVal.str s
  | none, none, c => optCurrency c

/-- `get_spending_status` against a configured limit row `L` and one
order of `S` for today. -/
def spendingRunLS (L S : ℚ) : JVal × Nat :=
  get_spending_status fullEnv
    (.ok ⟨none, JVal.arr [JVal.obj [("limit_value", JVal.num L)]]⟩)
    (.ok ⟨none, JVal.arr [JVal.obj [("total_amount_value", JVal.num S)]]⟩)

/-- `get_spending_status` with no configured limit row and one order of
`S` for today. -/
def spendingRunNoLimit (S : ℚ) : JVal × Nat :=
  get_spending_status fullEnv
    (.ok ⟨none, JVal.arr []⟩)
    (.ok ⟨none, JVal.arr [JVal.obj [("total_amount_value", JVal.num S)]]⟩)

/-! ### Helper lemmas -/

theorem sumSpent_single (S : ℚ) :
    sumSpent [JVal.obj [("total_amount_value", JVal.num S)]] = .ok S := by
  simp [sumSpent, pyGetD, jlookup, pyFloat_pyOr_num, bind, Except.bind, pure, Except.pure]

theorem spendingRunLS_eq (L S : ℚ) :
    spendingRunLS L S =
      (JVal.obj
        [("status", JVal.str "success"),
         ("spending_limit", JVal.num L),
         ("total_spent_today", JVal.num S),
         ("remaining_limit", JVal.num (L - S)),
         ("transactions_today", JVal.arr [JVal.obj [("total_amount_value", JVal.num S)]]),
         ("advice", JVal.str (spendingAdvice S L))], 2) := by
  simp [spendingRunLS, get_spending_status, spending_status_rest, spendingLimitValue,
    fullEnv, envTruthy, pyLen, pyIndexNat, pyGetD, jlookup, pyFloat, pyOr, truthy,
    pyIter, sumSpent_single, bind, Except.bind, pure, Except.pure]

theorem spendingRunNoLimit_eq (S : ℚ) :
    spendingRunNoLimit S =
      (JVal.obj
        [("status", JVal.str "success"),
         ("spending_limit", JVal.num ((10 : ℚ) ^ 30)),
         ("total_spent_today", JVal.num S),
         ("remaining_limit", JVal.num ((10 : ℚ) ^ 30 - S)),
         ("transactions_today", JVal.arr [JVal.obj [("total_amount_value", JVal.num S)]]),
         ("advice", JVal.str (spendingAdvice S ((10 : ℚ) ^ 30)))], 2) := by
  simp [spendingRunNoLimit, get_spending_status, spending_status_rest, spendingLimitValue,
    fullEnv, envTruthy, pyLen, pyIndexNat, pyGetD, jlookup, pyFloat, pyOr, truthy,
    pyIter, sumSpent_single, bind, Except.bind, pure, Except.pure]

theorem componentValue_moneyObj (m : JVal) (k : String) (v : Option ℚ) (c : Option String)
    (hm : pyGet m k = .ok (moneyObj v c)) :
    componentValue m k = .ok (v.getD 0) := by
  unfold componentValue
  rw [hm]
  rcases v with _ | q <;> rcases c with _ | s <;>
    simp [moneyObj, pyGet, pyGetD, jlookup, pyOr_truthy, pyOr_falsy, truthy_null,
      truthy_obj, pyFloat_num, pyFloat_pyOr_num, bind, Except.bind, pure, Except.pure]

theorem componentCurrency_moneyObj (m : JVal) (k : String) (v : Option ℚ) (c : Option String)
    (hm : pyGet m k = .ok (moneyObj v c)) :
    componentCurrency m k = .ok (optCurrency c) := by
  unfold componentCurrency
  rw [hm]
  rcases v with _ | q <;> rcases c with _ | s <;>
    simp [moneyObj, optCurrency, pyGet, pyGetD, jlookup, pyOr_truthy, pyOr_falsy,
      truthy_null, truthy_obj, bind, Except.bind, pure, Except.pure]

theorem checkout_extract_costObj (sv hv tv : Option ℚ) (cs ch ct : Option String) :
    checkout_extract (cartWithCost (costObj sv hv tv cs ch ct)) =
      .ok ((sv.getD 0 + hv.getD 0 + tv.getD 0) / 100,
        pyOr (optCurrency cs) (pyOr (optCurrency ch) (optCurrency ct)), []) := by
  have h1 : pyGet (costObj sv hv tv cs ch ct) "subtotal" = .ok (moneyObj sv cs) := by
    simp [costObj, pyGet, pyGetD, jlookup]
  have h2 : pyGet (costObj sv hv tv cs ch ct) "shipping" = .ok (moneyObj hv ch) := by
    simp [costObj, pyGet, pyGetD, jlookup]
  have h3 : pyGet (costObj sv hv tv cs ch ct) "tax" = .ok (moneyObj tv ct) := by
    simp [costObj, pyGet, pyGetD, jlookup]
  have hco : truthy (costObj sv hv tv cs ch ct) = true := rfl
  simp [checkout_extract, cartWithCost, jget, jlookup, pyOr_truthy _ _ hco,
    componentValue_moneyObj _ _ _ _ h1, componentValue_moneyObj _ _ _ _ h2,
    componentValue_moneyObj _ _ _ _ h3,
    componentCurrency_moneyObj _ _ _ _ h1, componentCurrency_moneyObj _ _ _ _ h2,
    componentCurrency_moneyObj _ _ _ _ h3,
    truthy_null, truthy_arr, pyOr_falsy, pyIter, snapshotStores,
    bind, Except.bind, pure, Except.pure]

/-- With non-empty currency strings (the realistic case, e.g. "USD"),
the code's first-truthy choice coincides with first-non-null. -/
theorem firstCurrency_eq (cs ch ct : Option String)
    (hcs : ∀ s, cs = some s → s ≠ "") (hch : ∀ s, ch = some s → s ≠ "") :
    pyOr (optCurrency cs) (pyOr (optCurrency ch) (optCurrency ct)) = firstCurrency cs ch ct := by
  rcases cs with _ | s
  · rcases ch with _ | t
    · simp [optCurrency, firstCurrency, pyOr, truthy]
    · have ht := hch t rfl
      simp [optCurrency, firstCurrency, pyOr, truthy, ht]
  · have hs := hcs s rfl
    simp [optCurrency, firstCurrency, pyOr, truthy, hs]

/-- A truthy cart object inside a clean getCart envelope is returned
unwrapped, with exactly one network call. -/
theorem getCart_ok (cart : JVal) (h : truthy cart = true) :
    get_rye_cart_details fullEnv (.ok (getCartBody cart)) = (cart, 1) := by
  simp [get_rye_cart_details, fullEnv, envTruthy, get_cart_body, getCartBody, pyGet, pyGetD,
    jlookup, truthy_null, truthy_obj, h, bind, Except.bind, pure, Except.pure]

theorem processResult_dict (fs : List (String × JVal)) :
    processResult (JVal.obj fs) = .ok (procRecord (JVal.obj fs)) := by
  simp [processResult, procRecord, pyGetD, jgetD, bind, Except.bind, pure, Except.pure]

theorem processAll_ok (records : List JVal) (h : ∀ r, r ∈ records → isDict r = true) :
    processAll records = .ok (records.map procRecord) := by
  induction records with
  | nil => rfl
  | cons x xs ih =>
    have hx := h x (by simp)
    have hxs := ih fun r hr => h r (by simp [hr])
    cases x <;> simp_all [isDict, processAll, processResult_dict, bind, Except.bind,
      pure, Except.pure]

/-! ### Claim theorems -/

/-- Claim C1: every one of the nine tool operations, invoked with its
required environment variables unset, returns its configuration-error
dictionary immediately and issues zero network calls (HTTP or
datastore), whatever the provider/datastore would have answered. -/
theorem config_missing_no_network (search : Except String JVal)
    (r1 r2 r3 r4 r5 : HttpOutcome) (cart_id : String) (buyer : JVal)
    (ins q1 q2 q3 q4 : Except String SupaResp) (lim : Int) (user : String) (lv : ℚ) :
    research_products emptyEnv search = (firecrawlConfigError, 0) ∧
    request_amazon_product_tracking emptyEnv r1 = (ryeConfigErrorLong, 0) ∧
    fetch_amazon_product_details emptyEnv r2 = (ryeConfigErrorLong, 0) ∧
    create_amazon_cart emptyEnv r3 = (ryeConfigErrorShort, 0) ∧
    get_rye_cart_details emptyEnv r4 = (ryeConfigErrorShort, 0) ∧
    checkout_amazon_cart emptyEnv r5 cart_id buyer ins = (.ok supabaseConfigError, 0) ∧
    list_my_purchases emptyEnv lim q1 =
      (JVal.obj [("error", JVal.str "Supabase URL or key not set in environment.")], 0) ∧
    set_spending_limit emptyEnv user lv q2 = (supabaseConfigError, 0) ∧
    get_spending_status emptyEnv q3 q4 = (supabaseConfigError, 0) :=
  ⟨rfl, rfl, rfl, rfl, rfl, rfl, rfl, rfl, rfl⟩

/-- A getCart response whose cart carries a non-numeric subtotal value
string. -/
def nonNumericCartBody : JVal :=
  JVal.obj [("data", JVal.obj [("getCart", JVal.obj [("cart",
    JVal.obj
      [("cost", JVal.obj [("subtotal", JVal.obj [("value", JVal.str "abc")])]),
       ("stores", JVal.arr [])])])])]

/-- Claim C2 (code bug): `checkout_amazon_cart` evaluates
`float(...)` on the fetched cost values OUTSIDE its `try` block (source
lines 473-500 versus the `try:` at line 501), so a cart whose
`cost.subtotal.value` is the string "abc" makes the tool raise a
`ValueError` that escapes the tool boundary instead of returning a
structured failure dictionary. -/
theorem checkout_raises_on_nonnumeric_cost :
    checkout_amazon_cart fullEnv (.ok nonNumericCartBody) "cart-7"
      (JVal.obj [("email", JVal.str "shopper@example.com")]) (.ok ⟨none, JVal.arr []⟩)
    = (.error "could not convert string to float: \x27abc\x27", 1) := rfl

/-- Claim C4: the spending-status advisory has equality-inclusive
boundaries: spent ≥ limit gives the limit-reached tier (with remaining =
limit − spent, possibly negative), otherwise spent ≥ 0.9·limit gives the
approaching tier, otherwise the clear tier. -/
theorem spending_status_tier_boundaries (L S : ℚ) :
    jget (spendingRunLS L S).1 "remaining_limit" = JVal.num (L - S) ∧
    (L ≤ S → jget (spendingRunLS L S).1 "advice" = JVal.str limitReachedAdvice) ∧
    (S < L → (9 / 10 : ℚ) * L ≤ S →
      jget (spendingRunLS L S).1 "advice" = JVal.str approachingAdvice) ∧
    (S < (9 / 10 : ℚ) * L → S < L →
      jget (spendingRunLS L S).1 "advice" = JVal.str clearAdvice) := by
  have he := spendingRunLS_eq L S
  refine ⟨?_, fun h1 => ?_, fun h1 h2 => ?_, fun h1 h2 => ?_⟩
  · simp [he, jget, jlookup]
  · have ha : spendingAdvice S L = limitReachedAdvice := by
      rw [spendingAdvice, if_pos (by linarith)]
    simp [he, jget, jlookup, ha]
  · have ha : spendingAdvice S L = approachingAdvice := by
      rw [spendingAdvice, if_neg (by linarith), if_pos (by linarith)]
    simp [he, jget, jlookup, ha]
  · have ha : spendingAdvice S L = clearAdvice := by
      rw [spendingAdvice, if_neg (by linarith), if_neg (by linarith)]
    simp [he, jget, jlookup, ha]

/-- Claim C4 witness: with limit 100, spent 90 is "approaching", spent
89.99 is "clear", spent 100 and 150 are "limit reached", and remaining
at 150 is −50. -/
theorem spending_status_tier_boundaries_witness :
    jget (spendingRunLS 100 90).1 "advice" = JVal.str approachingAdvice ∧
    jget (spendingRunLS 100 (8999 / 100)).1 "advice" = JVal.str clearAdvice ∧
    jget (spendingRunLS 100 100).1 "advice" = JVal.str limitReachedAdvice ∧
    jget (spendingRunLS 100 150).1 "advice" = JVal.str limitReachedAdvice ∧
    jget (spendingRunLS 100 150).1 "remaining_limit" = JVal.num (-50) := by
  refine ⟨(spending_status_tier_boundaries 100 90).2.2.1 (by norm_num) (by norm_num),
    (spending_status_tier_boundaries 100 (8999 / 100)).2.2.2 (by norm_num) (by norm_num),
    (spending_status_tier_boundaries 100 100).2.1 (by norm_num),
    (spending_status_tier_boundaries 100 150).2.1 (by norm_num), ?_⟩
  have h := (spending_status_tier_boundaries 100 150).1
  norm_num at h
  exact h

/-- Claim C5: a created cart with an empty `stores` list (or an empty
`cartLines` list in the first store) is rejected with the empty-cart
failure even though the response carries no error field anywhere, and
within this response family the success payload is returned exactly when
the line items are non-empty and the store-level errors are empty. -/
theorem create_cart_empty_structural_guard (cid : String) (hcid : cid ≠ "")
    (cost : JVal) (ls es : List JVal) :
    create_amazon_cart fullEnv (.ok (createCartBody (cartWithStores cid cost []))) =
      (emptyCartFailure (cartWithStores cid cost []), 1) ∧
    create_amazon_cart fullEnv (.ok (createCartBody (cartWithStores cid cost
        [JVal.obj [("cartLines", JVal.arr []), ("errors", JVal.arr es)]]))) =
      (emptyCartFailure (cartWithStores cid cost
        [JVal.obj [("cartLines", JVal.arr []), ("errors", JVal.arr es)]]), 1) ∧
    ((create_amazon_cart fullEnv (.ok (createCartBody (cartWithStores cid cost
        [JVal.obj [("cartLines", JVal.arr ls), ("errors", JVal.arr es)]])))).1 =
      JVal.obj [("cart", cartWithStores cid cost
        [JVal.obj [("cartLines", JVal.arr ls), ("errors", JVal.arr es)]])] ↔
      ls ≠ [] ∧ es = []) := by
  have hid : truthy (JVal.str cid) = true := by simp [truthy, hcid]
  refine ⟨?_, ?_, ?_⟩
  · simp [create_amazon_cart, fullEnv, envTruthy, create_cart_body, createCartBody,
      cartWithStores, emptyCartCheck, emptyCartFailure, pyGet, pyGetD, pyIndexKey,
      pyIndexNat, pyLen, pyIter, jlookup, hid, truthy_null, truthy_arr, truthy_obj,
      isList_arr, findStoreError, bind, Except.bind, pure, Except.pure]
  · simp [create_amazon_cart, fullEnv, envTruthy, create_cart_body, createCartBody,
      cartWithStores, emptyCartCheck, emptyCartFailure, pyGet, pyGetD, pyIndexKey,
      pyIndexNat, pyLen, pyIter, jlookup, hid, truthy_null, truthy_arr, truthy_obj,
      isList_arr, findStoreError, bind, Except.bind, pure, Except.pure]
  · rcases ls with _ | ⟨l, ls2⟩ <;> rcases es with _ | ⟨e, es2⟩ <;>
      simp [create_amazon_cart, fullEnv, envTruthy, create_cart_body, createCartBody,
        cartWithStores, emptyCartCheck, emptyCartFailure, storeErrorFailure, pyGet,
        pyGetD, pyIndexKey, pyIndexNat, pyLen, pyIter, jlookup, hid, truthy_null,
        truthy_arr, truthy_obj, isList_arr, findStoreError,
        bind, Except.bind, pure, Except.pure]

/-- Claim C5 witness: instantiation at a concrete cart id, an empty cost
object, one populated line and no store errors. -/
theorem create_cart_empty_structural_guard_witness :
    "cart-w5" ≠ "" ∧
    create_amazon_cart fullEnv (.ok (createCartBody (cartWithStores "cart-w5" (JVal.obj []) []))) =
      (emptyCartFailure (cartWithStores "cart-w5" (JVal.obj []) []), 1) :=
  ⟨by decide,
   (create_cart_empty_structural_guard "cart-w5" (by decide) (JVal.obj [])
     [JVal.obj [("quantity", JVal.num 1)]] []).1⟩

/-- A store-level error record as Rye reports it. -/
def storeErrObj : JVal :=
  JVal.obj [("code", JVal.str "PRODUCT_UNAVAILABLE"), ("message", JVal.str "item cannot be purchased")]

/-- A created cart whose FIRST store has empty cartLines and no errors,
while the SECOND store has populated cartLines and a non-empty errors
array. -/
def cartCx : JVal :=
  cartWithStores "cart-cx" (JVal.obj [])
    [JVal.obj [("cartLines", JVal.arr []), ("errors", JVal.arr [])],
     JVal.obj [("cartLines", JVal.arr [JVal.obj [("quantity", JVal.num 1)]]),
               ("errors", JVal.arr [storeErrObj])]]

/-- Claim C6 counterexample: a cart in which the second store carries a
non-empty errors array (and non-empty cartLines) but the first store's
cartLines is empty is rejected by the empty-cart guard, whose failure
does NOT quote the store-level errors — its details field is the fixed
empty-cart string, not the errors array. -/
theorem store_errors_not_quoted_counterexample :
    create_amazon_cart fullEnv (.ok (createCartBody cartCx)) = (emptyCartFailure cartCx, 1) ∧
    jget (create_amazon_cart fullEnv (.ok (createCartBody cartCx))).1 "details" ≠
      JVal.arr [storeErrObj] := by
  have h1 : create_amazon_cart fullEnv (.ok (createCartBody cartCx)) =
      (emptyCartFailure cartCx, 1) := rfl
  refine ⟨h1, ?_⟩
  rw [h1]
  simp [emptyCartFailure, jget, jlookup]

/-- Claim C6 (amended): whenever the first store's cartLines list is
non-empty (so the structural guard passes) and some store carries a
non-empty errors array, the operation returns the store-level failure
quoting the first such store's errors; when the first store's line
items are empty the empty-cart failure is returned instead, without
quoting the errors. -/
theorem store_errors_quoted_after_structural_guard (cid : String) (hcid : cid ≠ "")
    (cost : JVal) (fs0 : List (String × JVal)) (l0 : JVal) (ls : List JVal)
    (more : List JVal) (es : JVal)
    (hcl : jlookup fs0 "cartLines" = some (JVal.arr (l0 :: ls)))
    (herr : findStoreError (JVal.obj fs0 :: more) = .ok (some es)) :
    create_amazon_cart fullEnv (.ok (createCartBody (cartWithStores cid cost
        (JVal.obj fs0 :: more)))) =
      (storeErrorFailure es (cartWithStores cid cost (JVal.obj fs0 :: more)), 1) := by
  have hid : truthy (JVal.str cid) = true := by simp [truthy, hcid]
  simp [create_amazon_cart, fullEnv, envTruthy, create_cart_body, createCartBody,
    cartWithStores, emptyCartCheck, storeErrorFailure, pyGet, pyGetD, pyIndexKey,
    pyIndexNat, pyLen, pyIter, jlookup, hid, hcl, herr, truthy_null, truthy_arr,
    truthy_obj, isList_arr, bind, Except.bind, pure, Except.pure]

/-- Claim C6 witness: the first store is clean and populated, the second
store carries the error; the returned failure quotes exactly that errors
array. -/
theorem store_errors_quoted_after_structural_guard_witness :
    create_amazon_cart fullEnv (.ok (createCartBody (cartWithStores "cart-w6" (JVal.obj [])
        (JVal.obj [("cartLines", JVal.arr [JVal.obj []]), ("errors", JVal.arr [])] ::
         [JVal.obj [("cartLines", JVal.arr [JVal.obj []]),
                    ("errors", JVal.arr [storeErrObj])]])))) =
      (storeErrorFailure (JVal.arr [storeErrObj])
        (cartWithStores "cart-w6" (JVal.obj [])
          (JVal.obj [("cartLines", JVal.arr [JVal.obj []]), ("errors", JVal.arr [])] ::
           [JVal.obj [("cartLines", JVal.arr [JVal.obj []]),
                      ("errors", JVal.arr [storeErrObj])]])), 1) :=
  store_errors_quoted_after_structural_guard "cart-w6" (by decide) (JVal.obj [])
    [("cartLines", JVal.arr [JVal.obj []]), ("errors", JVal.arr [])]
    (JVal.obj []) [] _ _ rfl rfl

/-- Claim C9: the empty-cart structural guard inspects only the first
store: whenever the first store's cartLines value is falsy (empty list
or missing), the operation fails with the empty-cart failure no matter
what later stores contain. -/
theorem empty_guard_first_store_only (cl : JVal) (hcl : truthy cl = false)
    (rest : List JVal) (cid : String) (hcid : cid ≠ "") (cost : JVal) :
    create_amazon_cart fullEnv (.ok (createCartBody (cartWithStores cid cost
        (JVal.obj [("cartLines", cl)] :: rest)))) =
      (emptyCartFailure (cartWithStores cid cost (JVal.obj [("cartLines", cl)] :: rest)), 1) := by
  have hid : truthy (JVal.str cid) = true := by simp [truthy, hcid]
  simp [create_amazon_cart, fullEnv, envTruthy, create_cart_body, createCartBody,
    cartWithStores, emptyCartCheck, emptyCartFailure, pyGet, pyGetD, pyIndexKey,
    pyIndexNat, pyLen, pyIter, jlookup, hid, hcl, truthy_null, truthy_arr, truthy_obj,
    isList_arr, bind, Except.bind, pure, Except.pure]

/-- Claim C9 witness: first store has an empty cartLines list while the
second store is populated; the empty-cart failure still fires. -/
theorem empty_guard_first_store_only_witness :
    create_amazon_cart fullEnv (.ok (createCartBody (cartWithStores "cart-w9" (JVal.obj [])
        (JVal.obj [("cartLines", JVal.arr [])] ::
         [JVal.obj [("cartLines", JVal.arr [JVal.obj [("quantity", JVal.num 2)]])]])))) =
      (emptyCartFailure (cartWithStores "cart-w9" (JVal.obj [])
        (JVal.obj [("cartLines", JVal.arr [])] ::
         [JVal.obj [("cartLines", JVal.arr [JVal.obj [("quantity", JVal.num 2)]])]])), 1) :=
  empty_guard_first_store_only (JVal.arr []) rfl
    [JVal.obj [("cartLines", JVal.arr [JVal.obj [("quantity", JVal.num 2)]])]]
    "cart-w9" (by decide) (JVal.obj [])

/-- Claim C3: checkout persists total_amount_value =
(subtotal + shipping + tax raw minor-unit values) / 100, an absent
component counting as 0, and total_amount_currency = the first non-null
currency among subtotal, shipping, tax (currencies being non-empty
strings such as "USD"). -/
theorem checkout_total_and_currency (sv hv tv : Option ℚ) (cs ch ct : Option String)
    (cid email : String) (d : JVal)
    (hcs : ∀ s, cs = some s → s ≠ "") (hch : ∀ s, ch = some s → s ≠ "") :
    checkout_amazon_cart fullEnv
        (.ok (getCartBody (cartWithCost (costObj sv hv tv cs ch ct))))
        cid (JVal.obj [("email", JVal.str email)]) (.ok ⟨none, d⟩) =
      (.ok (JVal.obj
        [("status", JVal.str "success"),
         ("order_data", JVal.obj
           [("rye_order_id", JVal.null),
            ("rye_cart_id", JVal.str cid),
            ("user_identifier", JVal.str email),
            ("status", JVal.str "CREATED"),
            ("total_amount_value", JVal.num ((sv.getD 0 + hv.getD 0 + tv.getD 0) / 100)),
            ("total_amount_currency", firstCurrency cs ch ct),
            ("items_snapshot", JVal.arr [])]),
         ("supabase_insert", d)]), 2) := by
  have hco : truthy (cartWithCost (costObj sv hv tv cs ch ct)) = true := rfl
  have hget := getCart_ok (cartWithCost (costObj sv hv tv cs ch ct)) hco
  have hd : isDict (cartWithCost (costObj sv hv tv cs ch ct)) = true := rfl
  have herr : jget (cartWithCost (costObj sv hv tv cs ch ct)) "error" = JVal.null := rfl
  have hext := checkout_extract_costObj sv hv tv cs ch ct
  have hcur := firstCurrency_eq cs ch ct hcs hch
  have henv : (!(envTruthy fullEnv.supabaseUrl && envTruthy fullEnv.supabaseKey)) = false := rfl
  simp [checkout_amazon_cart, henv, hget, hd, herr, hext, hcur,
    checkout_insert, pyGet, pyGetD, jlookup, truthy_null,
    bind, Except.bind, pure, Except.pure]

/-- Claim C3 witness: subtotal 1000, shipping 500, tax 0 minor units
give a persisted total of 15.00 with currency "USD". -/
theorem checkout_total_and_currency_witness :
    (15 : ℚ) = (1000 + 500 + 0) / 100 ∧
    checkout_amazon_cart fullEnv
        (.ok (getCartBody (cartWithCost
          (costObj (some 1000) (some 500) (some 0) (some "USD") none none))))
        "cart-15" (JVal.obj [("email", JVal.str "shopper@example.com")])
        (.ok ⟨none, JVal.arr []⟩) =
      (.ok (JVal.obj
        [("status", JVal.str "success"),
         ("order_data", JVal.obj
           [("rye_order_id", JVal.null),
            ("rye_cart_id", JVal.str "cart-15"),
            ("user_identifier", JVal.str "shopper@example.com"),
            ("status", JVal.str "CREATED"),
            ("total_amount_value", JVal.num 15),
            ("total_amount_currency", JVal.str "USD"),
            ("items_snapshot", JVal.arr [])]),
         ("supabase_insert", JVal.arr [])]), 2) := by
  refine ⟨by norm_num, ?_⟩
  have h := checkout_total_and_currency (some 1000) (some 500) (some 0) (some "USD")
    none none "cart-15" "shopper@example.com" (JVal.arr [])
    (by intro s hs; injection hs with h2; subst h2; decide)
    (by intro s hs; cases hs)
  norm_num [firstCurrency] at h
  exact h

/-- Claim C7: with no configured spending-limit row the limit resolves
to the large finite sentinel 1e30 (not infinity, not zero), remaining =
sentinel − spent, and any spend below 0.9·sentinel gets the clear-tier
advisory. -/
theorem spending_status_sentinel_default (S : ℚ) :
    jget (spendingRunNoLimit S).1 "spending_limit" = JVal.num ((10 : ℚ) ^ 30) ∧
    jget (spendingRunNoLimit S).1 "remaining_limit" = JVal.num ((10 : ℚ) ^ 30 - S) ∧
    (S < (9 / 10 : ℚ) * 10 ^ 30 →
      jget (spendingRunNoLimit S).1 "advice" = JVal.str clearAdvice) := by
  have he := spendingRunNoLimit_eq S
  refine ⟨?_, ?_, fun h1 => ?_⟩
  · simp [he, jget, jlookup]
  · simp [he, jget, jlookup]
  · have ha : spendingAdvice S ((10 : ℚ) ^ 30) = clearAdvice := by
      rw [spendingAdvice, if_neg (by nlinarith), if_neg (by nlinarith)]
    simp [he, jget, jlookup, ha]

/-- Claim C7 witness: a 250-unit spend against the sentinel limit is
clear, with remaining = 1e30 − 250. -/
theorem spending_status_sentinel_default_witness :
    jget (spendingRunNoLimit 250).1 "spending_limit" = JVal.num ((10 : ℚ) ^ 30) ∧
    jget (spendingRunNoLimit 250).1 "remaining_limit" = JVal.num ((10 : ℚ) ^ 30 - 250) ∧
    jget (spendingRunNoLimit 250).1 "advice" = JVal.str clearAdvice :=
  ⟨(spending_status_sentinel_default 250).1,
   (spending_status_sentinel_default 250).2.1,
   (spending_status_sentinel_default 250).2.2 (by norm_num)⟩

/-- The failure dictionary `research_products` builds for a falsy
`search_results` value; for the empty list its details string is the
repr "[]". -/
def unexpectedFormatFailure : JVal :=
  JVal.obj
    [("error", JVal.str "Unexpected format from Firecrawl search."),
     ("details", JVal.str "[]")]

/-- Claim C8 counterexample: an empty provider result list — a perfectly
well-formed sequence of zero records — does NOT yield a Success with an
empty results list; the falsy-check at line 45 sends it to the
"Unexpected format" failure branch. -/
theorem research_empty_results_counterexample :
    research_products fullEnv (.ok (JVal.arr [])) = (unexpectedFormatFailure, 1) ∧
    (research_products fullEnv (.ok (JVal.arr []))).1 ≠
      JVal.obj [("results", JVal.arr [])] := by
  have h1 : research_products fullEnv (.ok (JVal.arr [])) = (unexpectedFormatFailure, 1) := rfl
  refine ⟨h1, ?_⟩
  rw [h1]
  simp [unexpectedFormatFailure]

/-- Claim C8 (amended): for every NON-EMPTY sequence of record
dictionaries the operation returns a Success whose results list has one
{title, url, snippet} entry per record in order, substituting "N/A" for
a missing title or url and "" for a missing snippet; the empty sequence
instead yields the "Unexpected format" failure. -/
theorem research_results_mapping (records : List JVal) (hne : records ≠ [])
    (h : ∀ r, r ∈ records → isDict r = true) :
    research_products fullEnv (.ok (JVal.arr records)) =
      (JVal.obj [("results", JVal.arr (records.map procRecord))], 1) := by
  have hp := processAll_ok records h
  rcases records with _ | ⟨r0, rest⟩
  · exact absurd rfl hne
  · simp [research_products, fullEnv, envTruthy, research_products_body, truthy_arr,
      pyIter, hp, bind, Except.bind, pure, Except.pure]

/-- Claim C8 witness: one record with only a title maps to a single
entry with url "N/A" and empty snippet. -/
theorem research_results_mapping_witness :
    research_products fullEnv (.ok (JVal.arr [JVal.obj [("title", JVal.str "Widget")]])) =
      (JVal.obj [("results", JVal.arr
        [JVal.obj [("title", JVal.str "Widget"), ("url", JVal.str "N/A"),
                   ("snippet", JVal.str "")]])], 1) := by
  have h := research_results_mapping [JVal.obj [("title", JVal.str "Widget")]]
    (by simp) (by intro r hr; simp at hr; subst hr; rfl)
  simpa [procRecord, jgetD, jlookup] using h

/-- Claim C10: checkout never validates buyer_info — with no "email"
key it still inserts an Order row with user_identifier null,
rye_order_id null and status "CREATED", and reports success when the
insert succeeds. -/
theorem checkout_missing_email_proceeds (bf : List (String × JVal))
    (hbf : jlookup bf "email" = none) (cid : String) (d : JVal) :
    checkout_amazon_cart fullEnv (.ok (getCartBody (cartWithCost (JVal.obj []))))
        cid (JVal.obj bf) (.ok ⟨none, d⟩) =
      (.ok (JVal.obj
        [("status", JVal.str "success"),
         ("order_data", JVal.obj
           [("rye_order_id", JVal.null),
            ("rye_cart_id", JVal.str cid),
            ("user_identifier", JVal.null),
            ("status", JVal.str "CREATED"),
            ("total_amount_value", JVal.num 0),
            ("total_amount_currency", JVal.null),
            ("items_snapshot", JVal.arr [])]),
         ("supabase_insert", d)]), 2) := by
  have hget := getCart_ok (cartWithCost (JVal.obj [])) rfl
  have hd : isDict (cartWithCost (JVal.obj [])) = true := rfl
  have herr : jget (cartWithCost (JVal.obj [])) "error" = JVal.null := rfl
  have hext : checkout_extract (cartWithCost (JVal.obj [])) = .ok (0, JVal.null, []) := by
    have h0 : checkout_extract (cartWithCost (JVal.obj [])) =
        .ok ((0 + 0 + 0) / 100, JVal.null, []) := rfl
    rw [h0]
    norm_num
  have henv : (!(envTruthy fullEnv.supabaseUrl && envTruthy fullEnv.supabaseKey)) = false := rfl
  simp [checkout_amazon_cart, henv, hget, hd, herr, hext, truthy_null,
    checkout_insert, pyGet, pyGetD, hbf, bind, Except.bind, pure, Except.pure]

/-- Claim C10 witness: a buyer_info holding only a name (no email) still
produces a successful null-user order insert. -/
theorem checkout_missing_email_proceeds_witness :
    jlookup [("name", JVal.str "Sam")] "email" = none ∧
    checkout_amazon_cart fullEnv (.ok (getCartBody (cartWithCost (JVal.obj []))))
        "cart-w10" (JVal.obj [("name", JVal.str "Sam")]) (.ok ⟨none, JVal.arr []⟩) =
      (.ok (JVal.obj
        [("status", JVal.str "success"),
         ("order_data", JVal.obj
           [("rye_order_id", JVal.null),
            ("rye_cart_id", JVal.str "cart-w10"),
            ("user_identifier", JVal.null),
            ("status", JVal.str "CREATED"),
            ("total_amount_value", JVal.num 0),
            ("total_amount_currency", JVal.null),
            ("items_snapshot", JVal.arr [])]),
         ("supabase_insert", JVal.arr [])]), 2) :=
  ⟨rfl, checkout_missing_email_proceeds [("name", JVal.str "Sam")] rfl "cart-w10" (JVal.arr [])⟩
